import Mathlib

/-!
Verification of the falcon tile server (a PostGIS vector-tile server).

The development shallowly embeds the program's core:

* the table-source metadata scan (src/table_source.rs, get_table_sources),
  including the bounds-string parsing chain and its failure modes;
* the tile-query synthesis of TableSource::get_tile (src/table_source.rs)
  and of the legacy scanner in src/db.rs (get_tilesets / get_tile);
* the HTTP handlers of src/server.rs (index listing, tile fetch), with the
  actor messages they send modelled as explicit logs and the database as an
  oracle parameter.

Rust strings are embedded as Lean String / List Char; u32 and i32 as Nat and
Int; HashMap String V as an association list (iteration order is the list
order; key lookup is the observable interface used by the program); f32
values as exact rationals (no claim depends on float rounding). Rust panics
(unwrap, out-of-bounds indexing) are embedded as a distinguished error
constructor, kept apart from the typed io::Error values the code returns.
-/

/-! ## Decimal rendering (model of Rust Display for integers) -/

/-- Digit list of a natural number, fuel-driven so that it reduces in the
kernel. Fuel n+1 always suffices since a number has at most n+1 digits. -/
def natDigsAux : Nat → Nat → List Char
  | 0, _ => []
  | fuel+1, n => if n < 10 then [Nat.digitChar n] else natDigsAux fuel (n / 10) ++ [Nat.digitChar (n % 10)]

/-- Decimal rendering of a Nat, as Rust's Display for u32 renders it. -/
def natToStr (n : Nat) : String := ⟨natDigsAux (n + 1) n⟩

/-- Decimal rendering of an Int, as Rust's Display for i32 renders it. -/
def intToStr (i : Int) : String := (if i < 0 then "-" else "") ++ natToStr i.natAbs

/-- Rendering of a Bool, as Rust's Display for bool renders it. -/
def boolToStr : Bool → String
  | true => "true"
  | false => "false"

/-- Rendering of a rational; used only inside the spec-modelled tile
envelope (see tilebbox below), where the numeric text never matters to a
claim, only its character set. -/
def ratToStr (q : Rat) : String :=
  intToStr q.num ++ (if q.den = 1 then "" else "/" ++ natToStr q.den)

/-! ## Model of the Rust string operations used by the bounds parser -/

/-- Model of str::replace("BOX", "") : removes every occurrence of BOX,
scanning left to right. -/
def replaceBOX : List Char → List Char
  | 'B' :: 'O' :: 'X' :: rest => replaceBOX rest
  | c :: rest => c :: replaceBOX rest
  | [] => []

/-- The cleanup chain of get_table_sources applied to the bounds text: Rust
.replace("(", "").replace(")", "").replace("BOX", "").replace(" ", ",").
Single-character replacements are a filter resp. a map. -/
def boundsClean (cs : List Char) : List Char :=
  (replaceBOX ((cs.filter (· ≠ '(')).filter (· ≠ ')'))).map
    (fun c => if c = ' ' then ',' else c)

/-- Numeric value of a digit list (callers guard non-emptiness and
digit-ness). -/
def digitsVal (cs : List Char) : Nat :=
  cs.foldl (fun a c => a * 10 + (c.toNat - 48)) 0

/-- Digit run: all digits and non-empty, else none. -/
def digitsToNat? (cs : List Char) : Option Nat :=
  if cs ≠ [] ∧ cs.all Char.isDigit then some (digitsVal cs) else none

/-- Exact rational denoted by sign, mantissa digits and a base-10 exponent
(already adjusted for the fraction length). Built with mkRat so that it
reduces in the kernel. -/
def ratOfParts (neg : Bool) (mant : Nat) (exp : Int) : Rat :=
  let sgn : Int := if neg then -(mant : Int) else (mant : Int)
  if 0 ≤ exp then mkRat (sgn * (10 ^ exp.toNat)) 1 else mkRat sgn (10 ^ (-exp).toNat)

/-- Mantissa part: Digit+ or Digit+ . Digit* or Digit* . Digit+ -/
def parseMantissa (neg : Bool) (m : List Char) (exp : Int) : Option Rat :=
  match m.splitOn '.' with
  | [i] => (digitsToNat? i).map (fun n => ratOfParts neg n exp)
  | [i, f] =>
    if (i ++ f) ≠ [] ∧ (i ++ f).all Char.isDigit then
      some (ratOfParts neg (digitsVal (i ++ f)) (exp - f.length))
    else none
  | _ => none

/-- Exponent part after the e: Sign? Digit+ -/
def parseExpPart (cs : List Char) : Option Int :=
  match cs with
  | '-' :: ds => (digitsToNat? ds).map (fun n => -(n : Int))
  | '+' :: ds => (digitsToNat? ds).map (fun n => (n : Int))
  | ds => (digitsToNat? ds).map (fun n => (n : Int))

/-- Model of Rust str::parse::<f32> on the grammar
Sign? (inf | infinity | nan | Number), Number = mantissa with optional
(e|E) exponent. Values are exact rationals: no claim depends on f32
rounding, only on parse success and on the count of parsed values. The
non-finite literals are accepted (as Rust does) with a placeholder value 0,
which no claim observes. -/
def parseF32 (s : List Char) : Option Rat :=
  let signRest : Bool × List Char :=
    match s with
    | '-' :: r => (true, r)
    | '+' :: r => (false, r)
    | r => (false, r)
  let lower := signRest.2.map Char.toLower
  if lower = "inf".data ∨ lower = "infinity".data ∨ lower = "nan".data then
    some 0
  else
    match lower.splitOn 'e' with
    | [m] => parseMantissa signRest.1 m 0
    | [m, e] => (parseExpPart e).bind (fun ex => parseMantissa signRest.1 m ex)
    | _ => none

/-! ## Data model (src/table_source.rs, src/db.rs, src/dev.rs) -/

/-- Tile coordinate, src/source.rs XYZ (z, x, y are u32). -/
structure XYZ where
  z : Nat
  x : Nat
  y : Nat
deriving DecidableEq, Repr

/-- TableSource, src/table_source.rs lines 11-25. Properties are the extra
property columns (name, declared type); bounds are the four extent floats. -/
structure TableSource where
  id : String
  schema : String
  table : String
  id_column : Option String
  geometry_column : String
  srid : Nat
  extent : Option Nat
  buffer : Option Nat
  clip_geom : Option Bool
  geometry_type : Option String
  properties : List (String × String)
  bounds : List Rat
deriving DecidableEq, Repr

/-- FunctionSource, src/function_source.rs (fields as constructed in
src/dev.rs mock_function_sources). -/
structure FunctionSource where
  id : String
  schema : String
  function : String
deriving DecidableEq, Repr

/-- HashMap String V embedded as an association list; the program only
observes key lookup and iteration. -/
abbrev TableSources := List (String × TableSource)

abbrev FunctionSources := List (String × FunctionSource)

/-- HashMap::insert - replaces any existing binding of the key. -/
def hmInsert (m : List (String × α)) (k : String) (v : α) : List (String × α) :=
  (k, v) :: m.filter (fun p => p.1 ≠ k)

/-- The defaults of src/table_source.rs lines 102-104. -/
def DEFAULT_EXTENT : Nat := 4096

def DEFAULT_BUFFER : Nat := 64

def DEFAULT_CLIP_GEOM : Bool := true

/-! ## The metadata scan of src/table_source.rs (get_table_sources) -/

/-- One result row of the geometry_columns metadata query
(scripts/get_table_sources.sql is not under src/; per the spec it reads
f_table_schema, f_table_name, f_geometry_column, srid, type, plus the
properties column decoded by utils::json_to_hashmap). -/
structure TableSourceRow where
  f_table_schema : String
  f_table_name : String
  f_geometry_column : String
  srid : Int
  type : Option String
  properties : List (String × String)
deriving DecidableEq, Repr

/-- The schema.table identifier of a metadata row. -/
def rowId (r : TableSourceRow) : String := r.f_table_schema ++ "." ++ r.f_table_name

/-- Database connection as an oracle: the metadata query result, and for a
given schema.table identifier the bounds column texts of the per-table
query SELECT ST_Extent(geom)::TEXT as bounds (none models a SQL NULL).
An error value is a database-side failure of the query. -/
structure Connection where
  tableRows : Except String (List TableSourceRow)
  boundsRows : String → Except String (List (Option String))

/-- A scan either returns a typed error (the io::Error values the Rust
function constructs with map_err) or aborts in a panic (unwrap on a failed
float parse, out-of-bounds indexing, get on a NULL column). -/
inductive ScanError where
  | ioError (msg : String)
  | panicked (msg : String)
deriving DecidableEq, Repr

/-- Log lines emitted through the log crate. -/
inductive LogEntry where
  | info (msg : String)
  | warn (msg : String)
deriving DecidableEq, Repr

/-- Bounds of the first row of the per-table bounds query (the loop body of
src/table_source.rs lines 124-135, which breaks after the first row): clean
the text, split on commas, and take elements 0..3, each parsed with
.parse::<f32>().unwrap(). A missing element (index panic), a failed parse
(unwrap panic) or a NULL column (get panic) aborts. No row at all leaves
the bounds vector empty. -/
def computeBounds (rowsBounds : List (Option String)) : Except String (List Rat) :=
  match rowsBounds with
  | [] => Except.ok []
  | none :: _ => Except.error "error retrieving column bounds: saw NULL"
  | some s :: _ =>
    let parts := (boundsClean s.data).splitOn ','
    let idx : Nat → Except String (List Char) := fun i =>
      match parts.get? i with
      | some v => Except.ok v
      | none => Except.error "index out of bounds"
    let pf : List Char → Except String Rat := fun cs =>
      match parseF32 cs with
      | some r => Except.ok r
      | none => Except.error "unwrap on ParseFloatError"
    do
      let s0 ← idx 0
      let v0 ← pf s0
      let s1 ← idx 1
      let v1 ← pf s1
      let s2 ← idx 2
      let v2 ← pf s2
      let s3 ← idx 3
      let v3 ← pf s3
      return [v0, v1, v2, v3]

/-- The row loop of get_table_sources, src/table_source.rs lines 113-162:
per row, run the bounds query and parse its text, log, skip SRID-0 rows
(with a warning), otherwise insert the built TableSource. -/
def scanLoop (conn : Connection) :
    List TableSourceRow → TableSources → List LogEntry →
    Except ScanError (TableSources × List LogEntry)
  | [], sources, logs =>
    Except.ok (sources, logs ++ (if sources.isEmpty then [LogEntry.info "No table sources found"] else []))
  | row :: rest, sources, logs =>
    let id := rowId row
    match conn.boundsRows id with
    | Except.error e => Except.error (ScanError.ioError e)
    | Except.ok rowsBounds =>
      match computeBounds rowsBounds with
      | Except.error m => Except.error (ScanError.panicked m)
      | Except.ok bounds =>
        let logs1 := logs ++ [LogEntry.info ("Found " ++ id ++ " table source")]
        if row.srid = 0 then
          scanLoop conn rest sources (logs1 ++ [LogEntry.warn (id ++ " has SRID 0, skipping")])
        else
          let source : TableSource :=
            { id := id
              schema := row.f_table_schema
              table := row.f_table_name
              id_column := none
              geometry_column := row.f_geometry_column
              srid := (row.srid % (2 ^ 32)).toNat
              extent := some DEFAULT_EXTENT
              buffer := some DEFAULT_BUFFER
              clip_geom := some DEFAULT_CLIP_GEOM
              geometry_type := row.type
              properties := row.properties
              bounds := bounds }
          scanLoop conn rest (hmInsert sources id source) logs1

/-- get_table_sources, src/table_source.rs lines 106-169, with the emitted
log lines returned alongside the catalog. -/
def get_table_sources (conn : Connection) : Except ScanError (TableSources × List LogEntry) :=
  match conn.tableRows with
  | Except.error e => Except.error (ScanError.ioError e)
  | Except.ok rows => scanLoop conn rows [] []

/-! ## Tile query synthesis (src/table_source.rs, TableSource::get_tile) -/

/-- Modelled from the spec: utils::tilebbox (src/utils.rs is not under
src/). Per the spec it computes the tile's bounding box in Web Mercator
from (z, x, y) with the standard tile-to-mercator-envelope formula and
renders it as an ST_MakeEnvelope call in SRID 3857. Coordinates are exact
rationals rendered by ratToStr; no claim depends on the numeric text. -/
def tilebbox (xyz : XYZ) : String :=
  let maxv : Rat := 20037508.34
  let res : Rat := (maxv * 2) / ((2 ^ xyz.z : Nat) : Rat)
  let xmin := -maxv + (xyz.x : Rat) * res
  let ymin := maxv - ((xyz.y : Rat) + 1) * res
  let xmax := -maxv + ((xyz.x : Rat) + 1) * res
  let ymax := maxv - (xyz.y : Rat) * res
  "ST_MakeEnvelope(" ++ ratToStr xmin ++ ", " ++ ratToStr ymin ++ ", " ++
    ratToStr xmax ++ ", " ++ ratToStr ymax ++ ", 3857)"

/-- The id_column fragment of get_tile (src/table_source.rs lines 74-77):
empty for None, a quoted trailing argument for Some. -/
def idColStr (s : TableSource) : String :=
  match s.id_column with
  | none => ""
  | some c => ", '" ++ c ++ "'"

/-- Rust Vec::join(",") as used on the quoted property columns. -/
def joinComma : List String → String
  | [] => ""
  | [x] => x
  | x :: xs => x ++ "," ++ joinComma xs

/-- The properties fragment of get_tile (src/table_source.rs lines 61-72):
empty when there are no property columns, otherwise a leading comma and the
double-quoted column names joined with commas, in iteration order. -/
def propsStr (s : TableSource) : String :=
  if s.properties.isEmpty then ""
  else ", " ++ joinComma (s.properties.map (fun kv => "\"" ++ kv.1 ++ "\""))

/-- Modelled from the spec: the scripts/get_tile.sql template filled by
format! in get_tile (the .sql file is not under src/). Per the spec the
statement filters rows intersecting the tile envelope (the WHERE clause,
whose envelope is the original_bounds argument), runs the MVT geometry
transform against the mercator envelope, attaches id and property columns,
and aggregates with the native MVT aggregate parameterized by extent,
buffer, clip flag and the source id as layer name. The two arguments
geomExpr and boundsExpr receive the geometry_column_mercator and
original_bounds values computed by the Rust code. -/
def mkTileQuery (s : TableSource) (xyz : XYZ) (geomExpr boundsExpr : String) : String :=
  "SELECT ST_AsMVT(tile, '" ++ s.id ++ "', " ++ natToStr (s.extent.getD DEFAULT_EXTENT) ++
    ", 'geom'" ++ idColStr s ++ ") FROM (SELECT ST_AsMVTGeom(" ++ geomExpr ++ ", " ++
    tilebbox xyz ++ ", " ++ natToStr (s.extent.getD DEFAULT_EXTENT) ++ ", " ++
    natToStr (s.buffer.getD DEFAULT_BUFFER) ++ ", " ++
    boolToStr (s.clip_geom.getD DEFAULT_CLIP_GEOM) ++ ") AS geom" ++ propsStr s ++
    " FROM " ++ s.id ++ " WHERE " ++ s.geometry_column ++ " && " ++ boundsExpr ++ ") AS tile"

/-- The query synthesis of TableSource::get_tile, src/table_source.rs lines
50-91: compute the mercator envelope; for SRID 3857 use the geometry column
and the envelope as they are, otherwise wrap the geometry column in
ST_Transform(.., 3857) and the envelope in ST_Transform(.., srid); then
fill the template. The query argument mirrors the unused _query parameter. -/
def get_tile_query (s : TableSource) (xyz : XYZ)
    (_query : Option (List (String × String))) : String :=
  let mercator_bounds := tilebbox xyz
  let pieces : String × String :=
    if s.srid = 3857 then
      (s.geometry_column, mercator_bounds)
    else
      ("ST_Transform(" ++ s.geometry_column ++ ", 3857)",
       "ST_Transform(" ++ mercator_bounds ++ ", " ++ natToStr s.srid ++ ")")
  mkTileQuery s xyz pieces.1 pieces.2

/-- Modelled from the spec: the database engine's evaluation of the
synthesized aggregate query (MVT encoding is delegated to the engine). The
matched argument is the set of table rows intersecting the envelope, each
already encoded; the aggregate always returns exactly one row whose payload is
the MVT encoding, and the encoding of zero features is the zero-length
payload. -/
def mvtEncode (features : List (List Nat)) : List Nat := features.flatten

/-- The single result row set of the aggregate tile query. -/
def runTileQuery (_queryText : String) (matched : List (List Nat)) : List (List Nat) :=
  [mvtEncode matched]

/-- Rust postgres query_one: ok exactly when the result set has one row. -/
def query_one (rows : List α) : Except String α :=
  match rows with
  | [r] => Except.ok r
  | _ => Except.error "query did not return exactly one row"

/-- TableSource::get_tile, src/table_source.rs lines 44-99: synthesize the
query, execute it (the database oracle is the matched feature set), and
return the st_asmvt column of the single row. -/
def TableSource.get_tile (s : TableSource) (xyz : XYZ)
    (query : Option (List (String × String))) (matched : List (List Nat)) :
    Except String (List Nat) :=
  (query_one (runTileQuery (get_tile_query s xyz query) matched)).map (fun payload => payload)

/-! ## The legacy scanner of src/db.rs (get_tilesets, get_tile) -/

/-- One row of the geometry_columns query of src/db.rs lines 52-56. -/
structure GeometryColumnsRow where
  f_table_schema : String
  f_table_name : String
  f_geometry_column : String
  srid : Int
  type : String
deriving DecidableEq, Repr

/-- Tileset, src/db.rs lines 35-46. -/
structure Tileset where
  schema : String
  table : String
  geometry_column : String
  srid : Int
  extent : Int
  buffer : Int
  clip_geom : Bool
  geometry_type : String
  query : String
deriving DecidableEq, Repr

/-- The query template of src/db.rs lines 79-96 with the transformed
geometry expression as argument; the clipping envelope is the literal
TileBBox($1, $2, $3, 3857) call, filled in by the database at bind time. -/
def mkTilesetQuery (row : GeometryColumnsRow) (transformedGeometry : String)
    (extent buffer : Int) (clip : Bool) : String :=
  "SELECT ST_AsMVT(q, '" ++ row.f_table_name ++ "', " ++ intToStr extent ++ ", '" ++
    row.f_geometry_column ++ "') FROM (SELECT ST_AsMVTGeom(" ++ transformedGeometry ++
    ", TileBBox($1, $2, $3, 3857), " ++ intToStr extent ++ ", " ++ intToStr buffer ++
    ", " ++ boolToStr clip ++ ") AS geom FROM " ++ row.f_table_schema ++ "." ++
    row.f_table_name ++ ") AS q;"

/-- The per-row Tileset construction of get_tilesets, src/db.rs lines
58-108: defaults extent 4096, buffer 256, clip true; for SRID 3857 the
geometry column is used as is, otherwise it is wrapped in
ST_Transform(.., 3857). -/
def mkTileset (row : GeometryColumnsRow) : Tileset :=
  let default_extent : Int := 4096
  let default_buffer : Int := 256
  let default_clip_geom : Bool := true
  let transformed_geometry :=
    if row.srid = 3857 then row.f_geometry_column
    else "ST_Transform(" ++ row.f_geometry_column ++ ", 3857)"
  { schema := row.f_table_schema
    table := row.f_table_name
    geometry_column := row.f_geometry_column
    srid := row.srid
    extent := default_extent
    buffer := default_buffer
    clip_geom := default_clip_geom
    geometry_type := row.type
    query := mkTilesetQuery row transformed_geometry default_extent default_buffer default_clip_geom }

/-- get_tilesets, src/db.rs lines 51-114: one Tileset per metadata row,
keyed by schema.table. -/
def get_tilesets (rows : List GeometryColumnsRow) : List (String × Tileset) :=
  rows.foldl (fun m row => hmInsert m (row.f_table_schema ++ "." ++ row.f_table_name) (mkTileset row)) []

/-- get_tile, src/db.rs lines 29-33: run the tileset query and take the
st_asmvt column of row 0 (Rows::get(0) panics when the result set is
empty). The database oracle is again the matched feature set of the inner
select; the aggregate always produces exactly one row. -/
def db_get_tile (tileset : Tileset) (matched : List (List Nat)) : Except String (List Nat) :=
  match runTileQuery tileset.query matched with
  | [] => Except.error "panicked: index out of bounds in Rows::get(0)"
  | r :: _ => Except.ok r

/-! ## The HTTP handlers of src/server.rs

The actix plumbing is embedded as follows: the per-process state cell is the
AppState record; the DBActor is an oracle parameter (its reply is the value
the await would produce, with the mailbox failure and the actor-level error
as nested layers); every message a handler sends is appended to an explicit
log, so that the theorems can speak about which database calls and
coordinator broadcasts a request performs. -/

/-- AppState, src/server.rs lines 35-41 (the db and coordinator addresses
are the oracle and the message logs of the handler embeddings). -/
structure AppState where
  table_sources : Option TableSources
  function_sources : Option FunctionSources
  watch_mode : Bool

/-- The path part of a tile request, src/server.rs TileRequest. -/
structure TileRequestPath where
  source_id : String
  z : Nat
  x : Nat
  y : Nat
  format : String
deriving DecidableEq, Repr

/-- An inbound tile request: the matched path plus the query string
parameters carried by the URL (actix hands them to a handler only through a
Query extractor). -/
structure HttpTileRequest where
  path : TileRequestPath
  queryParams : List (String × String)

/-- The source payload of a messages::GetTile message. -/
inductive SourceBox where
  | table (t : TableSource)
  | function (f : FunctionSource)
deriving DecidableEq, Repr

/-- messages::GetTile as sent by the tile handlers. -/
structure GetTileMsg where
  xyz : XYZ
  query : Option (List (String × String))
  source : SourceBox
deriving DecidableEq, Repr

/-- The scan message of the index handler (messages::GetTableSources). -/
inductive ScanMsg where
  | getTableSources
deriving DecidableEq, Repr

/-- Coordinator messages sent with do_send. -/
inductive CoordMsg where
  | refreshTableSources (table_sources : Option TableSources)
deriving DecidableEq

/-- The error responses a handler can produce: actix ErrorNotFound carries
its message (a 404-equivalent outcome); the InternalServerError responses
built by map_err carry none. -/
inductive ApiError where
  | notFound (msg : String)
  | internalServerError
deriving DecidableEq

/-- The success responses of the embedded handlers. -/
inductive ApiResponse where
  | jsonTableSources (table_sources : Option TableSources)
  | noContent (tile : List Nat)
  | okPbf (tile : List Nat)
deriving DecidableEq

/-- Outcome of the index handler: its response, the scan messages sent to
the DBActor, the broadcasts sent to the coordinator, and the state as left
behind by the handler. -/
structure IndexOutcome where
  response : Except ApiError ApiResponse
  scans : List ScanMsg
  broadcasts : List CoordMsg
  finalState : AppState

/-- Outcome of a tile handler: its response and the GetTile messages it
sent to the DBActor. -/
structure TileOutcome where
  response : Except ApiError ApiResponse
  sent : List GetTileMsg

/-- The index handler get_table_sources of src/server.rs lines 63-84: with
watch mode off it replies with the currently held catalog and returns; with
watch mode on it sends one GetTableSources scan, and on success broadcasts
one RefreshTableSources with the fresh catalog and replies with it. The
handler itself never writes the local catalog cell. -/
def server.get_table_sources (state : AppState)
    (dbScan : Except Unit (Except Unit TableSources)) : IndexOutcome :=
  if state.watch_mode = false then
    { response := Except.ok (ApiResponse.jsonTableSources state.table_sources)
      scans := [], broadcasts := [], finalState := state }
  else
    match dbScan with
    | Except.error _ =>
      { response := Except.error ApiError.internalServerError
        scans := [ScanMsg.getTableSources], broadcasts := [], finalState := state }
    | Except.ok (Except.error _) =>
      { response := Except.error ApiError.internalServerError
        scans := [ScanMsg.getTableSources], broadcasts := [], finalState := state }
    | Except.ok (Except.ok table_sources) =>
      { response := Except.ok (ApiResponse.jsonTableSources (some table_sources))
        scans := [ScanMsg.getTableSources]
        broadcasts := [CoordMsg.refreshTableSources (some table_sources)]
        finalState := state }

/-- The tile handler get_table_source_tile of src/server.rs lines 137-178:
resolve the source in the held catalog (404 with the id in the message when
absent, 404 when no catalog was ever published), send one GetTile message
with query None, and map the reply: errors to 500, a zero-length payload to
204 NoContent, anything else to 200 with the pbf body. -/
def server.get_table_source_tile (state : AppState) (path : TileRequestPath)
    (db : GetTileMsg → Except Unit (Except Unit (List Nat))) : TileOutcome :=
  match state.table_sources with
  | none => { response := Except.error (ApiError.notFound "There is no table sources"), sent := [] }
  | some table_sources =>
    match table_sources.lookup path.source_id with
    | none =>
      { response := Except.error (ApiError.notFound ("Table source '" ++ path.source_id ++ "' not found"))
        sent := [] }
    | some source =>
      let msg : GetTileMsg :=
        { xyz := { z := path.z, x := path.x, y := path.y }
          query := none
          source := SourceBox.table source }
      match db msg with
      | Except.error _ =>
        { response := Except.error ApiError.internalServerError, sent := [msg] }
      | Except.ok (Except.error _) =>
        { response := Except.error ApiError.internalServerError, sent := [msg] }
      | Except.ok (Except.ok tile) =>
        if tile.length = 0 then
          { response := Except.ok (ApiResponse.noContent tile), sent := [msg] }
        else
          { response := Except.ok (ApiResponse.okPbf tile), sent := [msg] }

/-- The tile handler get_function_source_tile of src/server.rs lines
254-296: same shape, except that the Query extractor's parameters are
forwarded as Some(query) in the GetTile message. -/
def server.get_function_source_tile (state : AppState) (path : TileRequestPath)
    (queryParams : List (String × String))
    (db : GetTileMsg → Except Unit (Except Unit (List Nat))) : TileOutcome :=
  match state.function_sources with
  | none => { response := Except.error (ApiError.notFound "There is no function sources"), sent := [] }
  | some function_sources =>
    match function_sources.lookup path.source_id with
    | none =>
      { response := Except.error (ApiError.notFound ("Function source '" ++ path.source_id ++ "' not found"))
        sent := [] }
    | some source =>
      let msg : GetTileMsg :=
        { xyz := { z := path.z, x := path.x, y := path.y }
          query := some queryParams
          source := SourceBox.function source }
      match db msg with
      | Except.error _ =>
        { response := Except.error ApiError.internalServerError, sent := [msg] }
      | Except.ok (Except.error _) =>
        { response := Except.error ApiError.internalServerError, sent := [msg] }
      | Except.ok (Except.ok tile) =>
        if tile.length = 0 then
          { response := Except.ok (ApiResponse.noContent tile), sent := [msg] }
        else
          { response := Except.ok (ApiResponse.okPbf tile), sent := [msg] }

/-- The route of src/server.rs line 302-305: the table tile route extracts
only the path, so the inbound query parameters never reach the handler. -/
def route_table_source_tile (state : AppState) (req : HttpTileRequest)
    (db : GetTileMsg → Except Unit (Except Unit (List Nat))) : TileOutcome :=
  server.get_table_source_tile state req.path db

/-- The route of src/server.rs line 308-310: the function tile route
extracts the path and the query parameters. -/
def route_function_source_tile (state : AppState) (req : HttpTileRequest)
    (db : GetTileMsg → Except Unit (Except Unit (List Nat))) : TileOutcome :=
  server.get_function_source_tile state req.path req.queryParams db

/-! ## Substring occurrence machinery

To state that a synthesized query carries no ST_Transform wrapper we use
plain list-infix occurrence over the character data, and prove
non-occurrence compositionally: a segment is start-safe for a pattern when
no occurrence can begin inside it (whatever follows), and a concatenation
of start-safe segments contains no occurrence at all. -/

/-- pat occurs somewhere in s. -/
def strContains (s pat : String) : Prop := pat.data <:+: s.data

/-- No occurrence of p can start inside l, whatever text follows l. -/
def Safe (p l : List Char) : Prop :=
  ∀ i r, i < l.length → ¬ p <+: (l.drop i ++ r)

/-- Decidable start-safety check for concrete segments: every position of l
has, within l, a character conflicting with the pattern. -/
def safeChunkB (p l : List Char) : Bool :=
  (List.range l.length).all fun i =>
    (List.range p.length).any fun j =>
      decide (i + j < l.length) && decide (l.getD (i + j) ' ' ≠ p.getD j ' ')

/-- No occurrence of pat can start inside s. -/
def SafeStr (pat s : String) : Prop := Safe pat.data s.data

/-- Strings free of the capital letter S; an occurrence of ST_Transform
cannot start inside them. -/
def NoUpperS (s : String) : Prop := ∀ c ∈ s.data, c ≠ 'S'

/-- The identifier fields of a TableSource through which text reaches the
synthesized query, each free of the capital letter S (as every plain
lower-case SQL identifier is): under this condition nothing in them can
begin an ST_Transform occurrence. -/
def CleanIdentifiers (s : TableSource) : Prop :=
  NoUpperS s.id ∧ NoUpperS s.geometry_column ∧
    (∀ c, s.id_column = some c → NoUpperS c) ∧
    (∀ kv ∈ s.properties, NoUpperS kv.1)

/-! ## Derived definitions about the metadata scan -/

/-- The source record inserted for a row by scanLoop. -/
def builtSource (row : TableSourceRow) (bounds : List Rat) : TableSource :=
  { id := rowId row
    schema := row.f_table_schema
    table := row.f_table_name
    id_column := none
    geometry_column := row.f_geometry_column
    srid := (row.srid % (2 ^ 32)).toNat
    extent := some DEFAULT_EXTENT
    buffer := some DEFAULT_BUFFER
    clip_geom := some DEFAULT_CLIP_GEOM
    geometry_type := row.type
    properties := row.properties
    bounds := bounds }

/-- A row whose bounds query succeeds and whose bounds text parses. -/
def GoodRow (conn : Connection) (r : TableSourceRow) : Prop :=
  ∃ bl, conn.boundsRows (rowId r) = Except.ok bl ∧ (computeBounds bl).isOk = true

/-- A row whose bounds query succeeds but whose bounds text fails to parse
(the panic case). -/
def BadRow (conn : Connection) (r : TableSourceRow) : Prop :=
  ∃ bl, conn.boundsRows (rowId r) = Except.ok bl ∧ (computeBounds bl).isOk = false

/-! ## Decidable substring helpers for the concrete counterexamples -/

/-- Boolean infix test over character lists. -/
def hasInfix (pat : List Char) : List Char → Bool
  | [] => pat.isEmpty
  | c :: rest => pat.isPrefixOf (c :: rest) || hasInfix pat rest

/-- Boolean substring test on strings. -/
def containsB (s pat : String) : Bool := hasInfix pat.data s.data

/-- Number of (possibly overlapping) occurrences of pat. -/
def countSub (pat : List Char) : List Char → Nat
  | [] => 0
  | c :: rest => (if pat.isPrefixOf (c :: rest) then 1 else 0) + countSub pat rest

/-- Recognizes the typed error alternative of a scan result (the io::Error
values built with map_err), as opposed to success or a panic. -/
def isTypedIoError : Except ScanError α → Bool
  | Except.error (ScanError.ioError _) => true
  | _ => false

/-! ## Claims about the metadata scan (C2, C3, C8, C10) -/

/-- A scan input whose single metadata row has SRID 0 and a bounds text
that does not parse. -/
def connC2 : Connection :=
  { tableRows := Except.ok
      [{ f_table_schema := "public", f_table_name := "zero_b", f_geometry_column := "geom",
         srid := 0, type := none, properties := [] }]
    boundsRows := fun _ => Except.ok [some "nonsense"] }

/-- Rows for the C2 witness: one SRID-0 row and one ordinary row, both with
parseable bounds. -/
def rowZeroGood : TableSourceRow :=
  { f_table_schema := "public", f_table_name := "zero_a", f_geometry_column := "geom",
    srid := 0, type := none, properties := [] }

def rowNormalA : TableSourceRow :=
  { f_table_schema := "public", f_table_name := "roads_a", f_geometry_column := "geom",
    srid := 4326, type := some "GEOMETRY", properties := [] }

def connW2 : Connection :=
  { tableRows := Except.ok [rowZeroGood, rowNormalA]
    boundsRows := fun _ => Except.ok [some "BOX(1 2,3 4)"] }

/-- A scan input with an ordinary SRID whose bounds text does not parse. -/
def connC3 : Connection :=
  { tableRows := Except.ok
      [{ f_table_schema := "public", f_table_name := "roads_b", f_geometry_column := "geom",
         srid := 4326, type := none, properties := [] }]
    boundsRows := fun _ => Except.ok [some "not a box"] }

/-- A concrete single-row scan input for the C8 witness. -/
def connW8 : Connection :=
  { tableRows := Except.ok [rowNormalA]
    boundsRows := fun _ => Except.ok [some "BOX(1 2,3 4)"] }

/-- The catalog and logs that the C8 witness scan produces. -/
def catW8 : TableSources := [("public.roads_a", builtSource rowNormalA [1, 2, 3, 4])]

def lgW8 : List LogEntry := [LogEntry.info "Found public.roads_a table source"]

/-- Scan inputs for claim C10: the same SRID-0 row once with an unparseable
bounds text and once with a well-formed one. -/
def rowC10 : TableSourceRow :=
  { f_table_schema := "public", f_table_name := "zero_c", f_geometry_column := "geom",
    srid := 0, type := none, properties := [] }

def connC10bad : Connection :=
  { tableRows := Except.ok [rowC10], boundsRows := fun _ => Except.ok [some "mangled"] }

def connC10good : Connection :=
  { tableRows := Except.ok [rowC10], boundsRows := fun _ => Except.ok [some "BOX(5 6,7 8)"] }

/-! ## Claim C7 (defaults of a scanned table source) -/

/-- A geometry_columns row for the legacy db.rs scanner, whose optional
fields do not exist at all. -/
def rowX7 : GeometryColumnsRow :=
  { f_table_schema := "public", f_table_name := "roads", f_geometry_column := "geom",
    srid := 4326, type := "GEOMETRY" }

/-- A concrete scan input for the C7 witness. -/
def connW7 : Connection :=
  { tableRows := Except.ok [rowNormalA]
    boundsRows := fun _ => Except.ok [some "BOX(1 2,3 4)"] }

/-- Concrete inputs for the C4 witness. -/
def srcW4 : TableSource :=
  { id := "public.table_source", schema := "public", table := "table_source",
    id_column := none, geometry_column := "geom", srid := 3857, extent := some 4096,
    buffer := some 64, clip_geom := some true, geometry_type := none,
    properties := [], bounds := [] }

def stW4 : AppState :=
  { table_sources := some [("public.table_source", srcW4)]
    function_sources := none, watch_mode := false }

def pathW4 : TileRequestPath :=
  { source_id := "public.table_source", z := 0, x := 0, y := 0, format := "pbf" }

def dbW4 : GetTileMsg → Except Unit (Except Unit (List Nat)) :=
  fun _ => Except.ok (Except.ok [7])

/-- Concrete states for the C6 witness. -/
def stOff : AppState :=
  { table_sources := some [("public.table_source", srcW4)]
    function_sources := none, watch_mode := false }

def stOn : AppState :=
  { table_sources := none, function_sources := none, watch_mode := true }

def freshCat : TableSources := [("public.fresh", srcW4)]

/-! ## Claim C9 (query parameters of the tile routes) -/

/-- Concrete inputs for the C9 counterexample. -/
def srcF9 : FunctionSource :=
  { id := "public.function_source", schema := "public", function := "function_source" }

def st9 : AppState :=
  { table_sources := some [("public.t", srcW4)]
    function_sources := some [("public.f", srcF9)]
    watch_mode := false }

def req9t : HttpTileRequest :=
  { path := { source_id := "public.t", z := 1, x := 2, y := 3, format := "pbf" }
    queryParams := [("token", "abc")] }

def req9f : HttpTileRequest :=
  { path := { source_id := "public.f", z := 1, x := 2, y := 3, format := "pbf" }
    queryParams := [("token", "abc")] }

def db9 : GetTileMsg → Except Unit (Except Unit (List Nat)) :=
  fun _ => Except.ok (Except.ok [])

/-! ## Claim C1 (reprojection wrappers in the synthesized tile queries) -/

/-- A geometry_columns row with a non-3857 SRID for the db.rs scanner. -/
def rowY1 : GeometryColumnsRow :=
  { f_table_schema := "public", f_table_name := "roads_y", f_geometry_column := "geom",
    srid := 4326, type := "GEOMETRY" }

/-- Concrete inputs for the C1 witness. -/
def rowY2 : GeometryColumnsRow :=
  { f_table_schema := "public", f_table_name := "roads_y2", f_geometry_column := "geom",
    srid := 4326, type := "GEOMETRY" }

def xyzW : XYZ := { z := 1, x := 0, y := 0 }


/-! ## Lemmas for the substring occurrence machinery -/

theorem safe_nil (p : List Char) : Safe p [] := by
  intro i r hi
  simp at hi

theorem safe_append {p a b : List Char} (ha : Safe p a) (hb : Safe p b) :
    Safe p (a ++ b) := by
  intro i r hi
  rcases Nat.lt_or_ge i a.length with h1 | h2
  · rw [List.drop_append_of_le_length (Nat.le_of_lt h1), List.append_assoc]
    exact ha i (b ++ r) h1
  · have hk : i = a.length + (i - a.length) := by omega
    have hdrop : (a ++ b).drop i = b.drop (i - a.length) := by
      conv_lhs => rw [hk]
      rw [← List.drop_drop, List.drop_left]
    rw [hdrop]
    apply hb
    rw [List.length_append] at hi
    omega

theorem not_infix_of_safe {p l : List Char} (h : Safe p l) (hne : p ≠ []) :
    ¬ p <:+: l := by
  rintro ⟨u, v, huv⟩
  have hlen : u.length < l.length := by
    have : 0 < p.length := List.length_pos.mpr hne
    have := congrArg List.length huv
    simp [List.length_append] at this
    omega
  have hdrop : l.drop u.length = p ++ v := by
    rw [← huv, List.append_assoc, List.drop_left]
  have := h u.length [] hlen
  rw [hdrop, List.append_nil] at this
  exact this (List.prefix_append p v)

theorem getD_of_prefix {p t : List Char} {j : Nat} (hpre : p <+: t)
    (hj : j < p.length) : t.getD j ' ' = p.getD j ' ' := by
  obtain ⟨w, hw⟩ := hpre
  rw [← hw, List.getD_append _ _ _ _ hj]

theorem safe_of_safeChunkB {p l : List Char} (h : safeChunkB p l = true) :
    Safe p l := by
  intro i r hi hpre
  have h' := h
  simp only [safeChunkB, List.all_eq_true, List.any_eq_true, List.mem_range,
    Bool.and_eq_true, decide_eq_true_eq] at h'
  obtain ⟨j, hj, hlt, hne⟩ := h' i hi
  apply hne
  have h1 : (l.drop i ++ r).getD j ' ' = p.getD j ' ' := getD_of_prefix hpre hj
  have hjd : j < (l.drop i).length := by
    rw [List.length_drop]
    omega
  have h2 : (l.drop i ++ r).getD j ' ' = (l.drop i).getD j ' ' :=
    List.getD_append _ _ _ _ hjd
  have h3 : (l.drop i).getD j ' ' = l.getD (i + j) ' ' := by
    rw [List.getD_eq_getElem?_getD, List.getD_eq_getElem?_getD, List.getElem?_drop]
  rw [← h3, ← h2, h1]

theorem safe_of_head_notMem {p l : List Char} {c0 : Char} {p' : List Char}
    (hp : p = c0 :: p') (h : ∀ c ∈ l, c ≠ c0) : Safe p l := by
  intro i r hi hpre
  subst hp
  rw [List.drop_eq_getElem_cons hi] at hpre
  rw [List.cons_append, List.cons_prefix_cons] at hpre
  exact h _ (List.getElem_mem hi) hpre.1.symm

/-! String-level wrappers. -/

theorem str_data_append (a b : String) : (a ++ b).data = a.data ++ b.data := by
  cases a
  cases b
  rfl

theorem safeStr_append {p a b : String} (ha : SafeStr p a) (hb : SafeStr p b) :
    SafeStr p (a ++ b) := by
  unfold SafeStr
  rw [str_data_append]
  exact safe_append ha hb

theorem safeStr_empty (p : String) : SafeStr p "" := safe_nil p.data

theorem not_strContains_of_safeStr {pat s : String} (h : SafeStr pat s)
    (hne : pat.data ≠ []) : ¬ strContains s pat :=
  not_infix_of_safe h hne

theorem safeStr_of_checkB {pat s : String}
    (h : safeChunkB pat.data s.data = true) : SafeStr pat s :=
  safe_of_safeChunkB h

theorem safeStr_of_noS {s : String} (h : NoUpperS s) :
    SafeStr "ST_Transform" s :=
  safe_of_head_notMem rfl h

theorem noS_append {a b : String} (ha : NoUpperS a) (hb : NoUpperS b) :
    NoUpperS (a ++ b) := by
  intro c hc
  rw [str_data_append, List.mem_append] at hc
  rcases hc with h | h
  · exact ha c h
  · exact hb c h

/-! Character facts about the rendered numbers and fragments. -/

theorem digitChar_isDigit {n : Nat} (h : n < 10) : (Nat.digitChar n).isDigit = true := by
  interval_cases n
  all_goals decide

theorem natDigsAux_isDigit :
    ∀ fuel n : Nat, ∀ c ∈ natDigsAux fuel n, c.isDigit = true := by
  intro fuel
  induction fuel with
  | zero => intro n c hc; simp [natDigsAux] at hc
  | succ f ih =>
    intro n c hc
    rw [natDigsAux] at hc
    by_cases h : n < 10
    · simp [h] at hc
      subst hc
      exact digitChar_isDigit h
    · simp [h] at hc
      rcases hc with hc | hc
      · exact ih _ c hc
      · subst hc
        exact digitChar_isDigit (Nat.mod_lt n (by omega))

theorem isDigit_ne_S {c : Char} (h : c.isDigit = true) : c ≠ 'S' := by
  intro he
  subst he
  simp at h

theorem noS_natToStr (n : Nat) : NoUpperS (natToStr n) := by
  intro c hc
  exact isDigit_ne_S (natDigsAux_isDigit (n + 1) n c hc)

theorem noS_intToStr (i : Int) : NoUpperS (intToStr i) := by
  unfold intToStr
  apply noS_append
  · by_cases h : i < 0
    all_goals simp [h]
    all_goals intro c hc
    all_goals simp at hc
    all_goals simp [hc]
  · exact noS_natToStr _

theorem noS_ratToStr (q : Rat) : NoUpperS (ratToStr q) := by
  unfold ratToStr
  apply noS_append (noS_intToStr _)
  by_cases h : q.den = 1
  · simp [h]
    intro c hc
    simp at hc
  · simp [h]
    apply noS_append _ (noS_natToStr _)
    intro c hc
    simp at hc
    simp [hc]

theorem safeStr_natToStr (n : Nat) : SafeStr "ST_Transform" (natToStr n) :=
  safeStr_of_noS (noS_natToStr n)

theorem safeStr_ratToStr (q : Rat) : SafeStr "ST_Transform" (ratToStr q) :=
  safeStr_of_noS (noS_ratToStr q)

theorem noS_of_all {s : String} (h : s.data.all (fun c => c != 'S') = true) :
    NoUpperS s := by
  intro c hc
  rw [List.all_eq_true] at h
  simpa using h c hc

theorem safeStr_boolToStr (b : Bool) : SafeStr "ST_Transform" (boolToStr b) := by
  cases b <;> exact safeStr_of_noS (noS_of_all (by decide))

theorem safeStr_tilebbox (xyz : XYZ) : SafeStr "ST_Transform" (tilebbox xyz) := by
  unfold tilebbox
  dsimp only
  exact
    safeStr_append (safeStr_append (safeStr_append (safeStr_append (safeStr_append (safeStr_append (safeStr_append (safeStr_append (safeStr_of_checkB (by decide))
      (safeStr_ratToStr _))
      (safeStr_of_noS (noS_of_all (by decide))))
      (safeStr_ratToStr _))
      (safeStr_of_noS (noS_of_all (by decide))))
      (safeStr_ratToStr _))
      (safeStr_of_noS (noS_of_all (by decide))))
      (safeStr_ratToStr _))
      (safeStr_of_noS (noS_of_all (by decide)))

theorem safeStr_idColStr {s : TableSource}
    (h : ∀ c, s.id_column = some c → NoUpperS c) :
    SafeStr "ST_Transform" (idColStr s) := by
  unfold idColStr
  cases hc : s.id_column with
  | none => exact safeStr_empty _
  | some c =>
    exact safeStr_append
      (safeStr_append (safeStr_of_noS (noS_of_all (by decide))) (safeStr_of_noS (h c hc)))
      (safeStr_of_noS (noS_of_all (by decide)))

theorem safeStr_joinComma {xs : List String}
    (h : ∀ x ∈ xs, SafeStr "ST_Transform" x) :
    SafeStr "ST_Transform" (joinComma xs) := by
  induction xs with
  | nil => exact safeStr_empty _
  | cons x xs ih =>
    cases xs with
    | nil => exact h x (by simp)
    | cons y ys =>
      show SafeStr "ST_Transform" (x ++ "," ++ joinComma (y :: ys))
      exact safeStr_append
        (safeStr_append (h x (by simp)) (safeStr_of_noS (noS_of_all (by decide))))
        (ih (fun z hz => h z (List.mem_cons_of_mem x hz)))

theorem safeStr_propsStr {s : TableSource}
    (h : ∀ kv ∈ s.properties, NoUpperS kv.1) :
    SafeStr "ST_Transform" (propsStr s) := by
  unfold propsStr
  by_cases he : s.properties.isEmpty
  · simp only [he, if_pos]
    exact safeStr_empty _
  · simp only [he, Bool.false_eq_true, if_false]
    apply safeStr_append (safeStr_of_noS (noS_of_all (by decide)))
    apply safeStr_joinComma
    intro x hx
    rw [List.mem_map] at hx
    obtain ⟨kv, hkv, hx⟩ := hx
    subst hx
    exact safeStr_append
      (safeStr_append (safeStr_of_noS (noS_of_all (by decide)))
        (safeStr_of_noS (h kv hkv)))
      (safeStr_of_noS (noS_of_all (by decide)))

theorem safeStr_mkTileQuery (s : TableSource) (xyz : XYZ)
    (h : CleanIdentifiers s) :
    SafeStr "ST_Transform" (mkTileQuery s xyz s.geometry_column (tilebbox xyz)) := by
  obtain ⟨hid, hgc, hidc, hpr⟩ := h
  unfold mkTileQuery
  exact
    safeStr_append (safeStr_append (safeStr_append (safeStr_append (safeStr_append (safeStr_append (safeStr_append (safeStr_append (safeStr_append (safeStr_append (safeStr_append (safeStr_append (safeStr_append (safeStr_append (safeStr_append (safeStr_append (safeStr_append (safeStr_append (safeStr_append (safeStr_append (safeStr_append (safeStr_append (safeStr_append (safeStr_append (safeStr_of_checkB (by decide))
      (safeStr_of_noS hid))
      (safeStr_of_noS (noS_of_all (by decide))))
      (safeStr_natToStr _))
      (safeStr_of_noS (noS_of_all (by decide))))
      (safeStr_idColStr hidc))
      (safeStr_of_checkB (by decide)))
      (safeStr_of_noS hgc))
      (safeStr_of_noS (noS_of_all (by decide))))
      (safeStr_tilebbox _))
      (safeStr_of_noS (noS_of_all (by decide))))
      (safeStr_natToStr _))
      (safeStr_of_noS (noS_of_all (by decide))))
      (safeStr_natToStr _))
      (safeStr_of_noS (noS_of_all (by decide))))
      (safeStr_boolToStr _))
      (safeStr_of_checkB (by decide)))
      (safeStr_propsStr hpr))
      (safeStr_of_checkB (by decide)))
      (safeStr_of_noS hid))
      (safeStr_of_checkB (by decide)))
      (safeStr_of_noS hgc))
      (safeStr_of_noS (noS_of_all (by decide))))
      (safeStr_tilebbox _))
      (safeStr_of_checkB (by decide))

/-! ## Lemmas about the metadata scan -/

theorem lookup_cons_ne {α : Type} {k i : String} {v : α} {t : List (String × α)}
    (h : k ≠ i) : ((k, v) :: t).lookup i = t.lookup i := by
  have hb : (i == k) = false := beq_eq_false_iff_ne.mpr (fun he => h he.symm)
  simp [List.lookup, hb]

theorem lookup_filter_ne {α : Type} {m : List (String × α)} {k i : String}
    (h : k ≠ i) : (m.filter (fun p => p.1 ≠ k)).lookup i = m.lookup i := by
  induction m with
  | nil => rfl
  | cons a t ih =>
    rcases a with ⟨ak, av⟩
    rw [List.filter_cons]
    by_cases ha : ak = k
    · rw [if_neg (by simp [ha])]
      rw [ih]
      subst ha
      rw [lookup_cons_ne h]
    · rw [if_pos (by simp [ha])]
      by_cases hai : ak = i
      · subst hai
        simp [List.lookup]
      · rw [lookup_cons_ne hai, lookup_cons_ne hai]
        exact ih

theorem lookup_hmInsert_ne {α : Type} {m : List (String × α)} {k i : String}
    {v : α} (h : k ≠ i) : (hmInsert m k v).lookup i = m.lookup i := by
  unfold hmInsert
  rw [lookup_cons_ne h, lookup_filter_ne h]

theorem mem_hmInsert {α : Type} {m : List (String × α)} {k : String} {v : α}
    {p : String × α} (h : p ∈ hmInsert m k v) : p = (k, v) ∨ p ∈ m := by
  unfold hmInsert at h
  rcases List.mem_cons.mp h with h | h
  · exact Or.inl h
  · exact Or.inr (List.mem_of_mem_filter h)

theorem scanLoop_cons (conn : Connection) (row : TableSourceRow)
    (rest : List TableSourceRow) (sources : TableSources) (logs : List LogEntry) :
    scanLoop conn (row :: rest) sources logs =
      match conn.boundsRows (rowId row) with
      | Except.error e => Except.error (ScanError.ioError e)
      | Except.ok rowsBounds =>
        match computeBounds rowsBounds with
        | Except.error m => Except.error (ScanError.panicked m)
        | Except.ok bounds =>
          if row.srid = 0 then
            scanLoop conn rest sources
              ((logs ++ [LogEntry.info ("Found " ++ rowId row ++ " table source")]) ++
                [LogEntry.warn (rowId row ++ " has SRID 0, skipping")])
          else
            scanLoop conn rest (hmInsert sources (rowId row) (builtSource row bounds))
              (logs ++ [LogEntry.info ("Found " ++ rowId row ++ " table source")]) := rfl

theorem scanLoop_logs_mono (conn : Connection) :
    ∀ (rows : List TableSourceRow) (acc : TableSources) (logs : List LogEntry)
      (cat : TableSources) (lg : List LogEntry),
      scanLoop conn rows acc logs = Except.ok (cat, lg) → ∃ t, lg = logs ++ t := by
  intro rows
  induction rows with
  | nil =>
    intro acc logs cat lg h
    rw [scanLoop] at h
    simp only [Except.ok.injEq, Prod.mk.injEq] at h
    exact ⟨_, h.2.symm⟩
  | cons row rest ih =>
    intro acc logs cat lg h
    rw [scanLoop_cons] at h
    split at h
    · exact absurd h (by simp)
    · split at h
      · exact absurd h (by simp)
      · split at h
        · obtain ⟨t, ht⟩ := ih _ _ _ _ h
          exact ⟨_, by rw [ht, List.append_assoc, List.append_assoc]⟩
        · obtain ⟨t, ht⟩ := ih _ _ _ _ h
          exact ⟨_, by rw [ht, List.append_assoc]⟩

theorem scanLoop_ok_of_good (conn : Connection) :
    ∀ (rows : List TableSourceRow) (acc : TableSources) (logs : List LogEntry),
      (∀ r ∈ rows, GoodRow conn r) →
      ∃ cat lg, scanLoop conn rows acc logs = Except.ok (cat, lg) := by
  intro rows
  induction rows with
  | nil =>
    intro acc logs _
    exact ⟨_, _, rfl⟩
  | cons row rest ih =>
    intro acc logs hgood
    obtain ⟨bl, hbl, hcb⟩ := hgood row (List.mem_cons_self row rest)
    cases hcbv : computeBounds bl with
    | error m => rw [hcbv] at hcb; simp [Except.isOk, Except.toBool] at hcb
    | ok bounds =>
      have hrest : ∀ r ∈ rest, GoodRow conn r :=
        fun r hr => hgood r (List.mem_cons_of_mem row hr)
      simp only [scanLoop_cons, hbl, hcbv]
      by_cases hs : row.srid = 0
      · rw [if_pos hs]
        exact ih _ _ hrest
      · rw [if_neg hs]
        exact ih _ _ hrest

theorem scanLoop_warn (conn : Connection) :
    ∀ (rows : List TableSourceRow) (acc : TableSources) (logs : List LogEntry)
      (cat : TableSources) (lg : List LogEntry),
      scanLoop conn rows acc logs = Except.ok (cat, lg) →
      ∀ r ∈ rows, r.srid = 0 →
        LogEntry.warn (rowId r ++ " has SRID 0, skipping") ∈ lg := by
  intro rows
  induction rows with
  | nil =>
    intro acc logs cat lg _ r hr
    simp at hr
  | cons row rest ih =>
    intro acc logs cat lg h r hr hr0
    cases hbl : conn.boundsRows (rowId row) with
    | error e => rw [scanLoop_cons, hbl] at h; exact absurd h (by simp)
    | ok bl =>
      cases hcb : computeBounds bl with
      | error m =>
        simp only [scanLoop_cons, hbl, hcb] at h
        exact absurd h (by simp)
      | ok bounds =>
        simp only [scanLoop_cons, hbl, hcb] at h
        rcases List.mem_cons.mp hr with rfl | hr'
        · rw [if_pos hr0] at h
          obtain ⟨t, ht⟩ := scanLoop_logs_mono conn _ _ _ _ _ h
          rw [ht]
          apply List.mem_append_left
          apply List.mem_append_right
          simp
        · by_cases hs : row.srid = 0
          · rw [if_pos hs] at h
            exact ih _ _ _ _ h r hr' hr0
          · rw [if_neg hs] at h
            exact ih _ _ _ _ h r hr' hr0

theorem scanLoop_excl (conn : Connection) :
    ∀ (rows : List TableSourceRow) (acc : TableSources) (logs : List LogEntry)
      (cat : TableSources) (lg : List LogEntry) (i : String),
      scanLoop conn rows acc logs = Except.ok (cat, lg) →
      (∀ r ∈ rows, rowId r = i → r.srid = 0) →
      cat.lookup i = acc.lookup i := by
  intro rows
  induction rows with
  | nil =>
    intro acc logs cat lg i h _
    rw [scanLoop] at h
    simp only [Except.ok.injEq, Prod.mk.injEq] at h
    rw [← h.1]
  | cons row rest ih =>
    intro acc logs cat lg i h hall
    cases hbl : conn.boundsRows (rowId row) with
    | error e => rw [scanLoop_cons, hbl] at h; exact absurd h (by simp)
    | ok bl =>
      cases hcb : computeBounds bl with
      | error m =>
        simp only [scanLoop_cons, hbl, hcb] at h
        exact absurd h (by simp)
      | ok bounds =>
        simp only [scanLoop_cons, hbl, hcb] at h
        have hrest : ∀ r ∈ rest, rowId r = i → r.srid = 0 :=
          fun r hr => hall r (List.mem_cons_of_mem row hr)
        by_cases hs : row.srid = 0
        · rw [if_pos hs] at h
          exact ih _ _ _ _ _ h hrest
        · rw [if_neg hs] at h
          have hne : rowId row ≠ i := by
            intro he
            exact hs (hall row (List.mem_cons_self row rest) he)
          rw [ih _ _ _ _ _ h hrest, lookup_hmInsert_ne hne]

theorem scanLoop_mem (conn : Connection) (P : TableSource → Prop)
    (hbuilt : ∀ row bl bounds, conn.boundsRows (rowId row) = Except.ok bl →
      computeBounds bl = Except.ok bounds → P (builtSource row bounds)) :
    ∀ (rows : List TableSourceRow) (acc : TableSources) (logs : List LogEntry)
      (cat : TableSources) (lg : List LogEntry),
      scanLoop conn rows acc logs = Except.ok (cat, lg) →
      (∀ p ∈ acc, P p.2) → ∀ p ∈ cat, P p.2 := by
  intro rows
  induction rows with
  | nil =>
    intro acc logs cat lg h hacc
    rw [scanLoop] at h
    simp only [Except.ok.injEq, Prod.mk.injEq] at h
    rw [← h.1]
    exact hacc
  | cons row rest ih =>
    intro acc logs cat lg h hacc
    cases hbl : conn.boundsRows (rowId row) with
    | error e => rw [scanLoop_cons, hbl] at h; exact absurd h (by simp)
    | ok bl =>
      cases hcb : computeBounds bl with
      | error m =>
        simp only [scanLoop_cons, hbl, hcb] at h
        exact absurd h (by simp)
      | ok bounds =>
        simp only [scanLoop_cons, hbl, hcb] at h
        by_cases hs : row.srid = 0
        · rw [if_pos hs] at h
          exact ih _ _ _ _ h hacc
        · rw [if_neg hs] at h
          refine ih _ _ _ _ h ?_
          intro p hp
          rcases mem_hmInsert hp with rfl | hp'
          · exact hbuilt row bl bounds hbl hcb
          · exact hacc p hp'

theorem scanLoop_panics (conn : Connection) :
    ∀ (rows : List TableSourceRow) (acc : TableSources) (logs : List LogEntry),
      (∀ r ∈ rows, ∃ bl, conn.boundsRows (rowId r) = Except.ok bl) →
      (∃ r ∈ rows, BadRow conn r) →
      ∃ m, scanLoop conn rows acc logs = Except.error (ScanError.panicked m) := by
  intro rows
  induction rows with
  | nil =>
    intro acc logs _ hbad
    simp at hbad
  | cons row rest ih =>
    intro acc logs hdb hbad
    obtain ⟨bl, hbl⟩ := hdb row (List.mem_cons_self row rest)
    cases hcb : computeBounds bl with
    | error m =>
      refine ⟨m, ?_⟩
      simp only [scanLoop_cons, hbl, hcb]
    | ok bounds =>
      obtain ⟨r, hr, br⟩ := hbad
      rcases List.mem_cons.mp hr with rfl | hr'
      · obtain ⟨bl2, hbl2, hbad2⟩ := br
        rw [hbl] at hbl2
        injection hbl2 with he
        subst he
        rw [hcb] at hbad2
        simp [Except.isOk, Except.toBool] at hbad2
      · have hrest : ∀ r2 ∈ rest, ∃ bl2, conn.boundsRows (rowId r2) = Except.ok bl2 :=
          fun r2 hr2 => hdb r2 (List.mem_cons_of_mem row hr2)
        simp only [scanLoop_cons, hbl, hcb]
        by_cases hs : row.srid = 0
        · rw [if_pos hs]
          exact ih _ _ hrest ⟨r, hr', br⟩
        · rw [if_neg hs]
          exact ih _ _ hrest ⟨r, hr', br⟩

theorem computeBounds_shape {bl : List (Option String)} {bs : List Rat}
    (h : computeBounds bl = Except.ok bs) : (bl = [] ∧ bs = []) ∨ bs.length = 4 := by
  match bl with
  | [] =>
    rw [computeBounds] at h
    simp only [Except.ok.injEq] at h
    exact Or.inl ⟨rfl, h.symm⟩
  | none :: t =>
    rw [computeBounds] at h
    exact absurd h (by simp)
  | some s :: t =>
    rw [computeBounds] at h
    simp only [bind, Except.bind] at h
    repeat
      split at h
      try exact absurd h (by simp)
    simp only [pure, Except.pure, Except.ok.injEq] at h
    rw [← h]
    exact Or.inr rfl

/-! ## Claims about the metadata scan (C2, C3, C8, C10) -/

/-- Claim C2, counterexample: a metadata scan whose only row has SRID 0
does not succeed (and hence excludes nothing): its bounds text is parsed
before the SRID test and the parse failure aborts the whole scan in a
panic. This refutes, as universally stated, that a scan containing an
SRID-0 row still succeeds with the row excluded. -/
theorem spec_c2_cex :
    get_table_sources connC2 = Except.error (ScanError.panicked "unwrap on ParseFloatError") ∧
      (get_table_sources connC2).isOk = false := by
  constructor
  · rfl
  · rfl

/-- Claim C2, amended: in a table-source metadata scan in which every row's
bounds query succeeds and every bounds text parses (bounds processing
precedes the SRID test and can itself abort the scan), the scan succeeds;
every SRID-0 row is logged with a warning rather than surfaced as an error,
and provided every row carrying its identifier has SRID 0, that identifier
is absent from the returned catalog. -/
theorem spec_c2_amended (conn : Connection) (rows : List TableSourceRow)
    (hrows : conn.tableRows = Except.ok rows)
    (hgood : ∀ r ∈ rows, GoodRow conn r) :
    ∃ cat lg, get_table_sources conn = Except.ok (cat, lg) ∧
      ∀ r ∈ rows, r.srid = 0 →
        LogEntry.warn (rowId r ++ " has SRID 0, skipping") ∈ lg ∧
        ((∀ r2 ∈ rows, rowId r2 = rowId r → r2.srid = 0) →
          cat.lookup (rowId r) = none) := by
  obtain ⟨cat, lg, hok⟩ := scanLoop_ok_of_good conn rows [] [] hgood
  refine ⟨cat, lg, ?_, ?_⟩
  · rw [get_table_sources, hrows]
    exact hok
  · intro r hr hr0
    refine ⟨scanLoop_warn conn rows [] [] cat lg hok r hr hr0, ?_⟩
    intro hall
    rw [scanLoop_excl conn rows [] [] cat lg (rowId r) hok hall]
    rfl

/-- Witness for the amended claim C2 at a concrete scan input. -/
theorem spec_c2_witness :
    ∃ cat lg, get_table_sources connW2 = Except.ok (cat, lg) ∧
      ∀ r ∈ [rowZeroGood, rowNormalA], r.srid = 0 →
        LogEntry.warn (rowId r ++ " has SRID 0, skipping") ∈ lg ∧
        ((∀ r2 ∈ [rowZeroGood, rowNormalA], rowId r2 = rowId r → r2.srid = 0) →
          cat.lookup (rowId r) = none) :=
  spec_c2_amended connW2 [rowZeroGood, rowNormalA] rfl
    (fun r _ => ⟨[some "BOX(1 2,3 4)"], rfl, by decide⟩)

/-- Claim C3, counterexample: on a malformed bounds text the scan does
abort without a catalog, but the failure is a panic (an unwrap on the
failed float parse), not one of the typed error values the scan returns
through its Result channel. -/
theorem spec_c3_cex :
    get_table_sources connC3 = Except.error (ScanError.panicked "unwrap on ParseFloatError") ∧
      isTypedIoError (get_table_sources connC3) = false ∧
      (get_table_sources connC3).isOk = false :=
  And.intro rfl (And.intro rfl rfl)

/-- Claim C3, amended: if every row's bounds query itself succeeds and some
row's bounds string fails to parse into the 4 floats, the entire scan
aborts - no catalog, partial or otherwise, is produced - but the abort is a
panic (unwrap on the parse error or out-of-bounds indexing), not a typed
error value. -/
theorem spec_c3_amended (conn : Connection) (rows : List TableSourceRow)
    (hrows : conn.tableRows = Except.ok rows)
    (hdb : ∀ r ∈ rows, ∃ bl, conn.boundsRows (rowId r) = Except.ok bl)
    (hbad : ∃ r ∈ rows, BadRow conn r) :
    ∃ m, get_table_sources conn = Except.error (ScanError.panicked m) := by
  obtain ⟨m, hm⟩ := scanLoop_panics conn rows [] [] hdb hbad
  refine ⟨m, ?_⟩
  rw [get_table_sources, hrows]
  exact hm

/-- Witness for the amended claim C3 at a concrete scan input. -/
theorem spec_c3_witness :
    ∃ m, get_table_sources connC3 = Except.error (ScanError.panicked m) := by
  apply spec_c3_amended connC3
    [{ f_table_schema := "public", f_table_name := "roads_b", f_geometry_column := "geom",
       srid := 4326, type := none, properties := [] }] rfl
  · intro r _
    exact ⟨[some "not a box"], rfl⟩
  · refine ⟨_, List.mem_singleton.mpr rfl, ⟨[some "not a box"], rfl, by decide⟩⟩

/-- Claim C8: in any catalog a successful scan produces, provided the
per-table bounds query returns at least one row (it is an aggregate, so it
always returns exactly one), every table source carries exactly 4 bounds
floats; a table whose bounds cannot be obtained aborts the scan and is
never inserted with fewer or more. -/
theorem spec_c8 (conn : Connection) (cat : TableSources) (lg : List LogEntry)
    (hb : ∀ i bl, conn.boundsRows i = Except.ok bl → bl ≠ [])
    (hok : get_table_sources conn = Except.ok (cat, lg)) :
    ∀ p ∈ cat, p.2.bounds.length = 4 := by
  rw [get_table_sources] at hok
  cases hr : conn.tableRows with
  | error e => rw [hr] at hok; exact absurd hok (by simp)
  | ok rows =>
    rw [hr] at hok
    refine scanLoop_mem conn (fun s => s.bounds.length = 4) ?_ rows [] [] cat lg hok (by simp)
    intro row bl bounds hbl hcb
    show (builtSource row bounds).bounds.length = 4
    rcases computeBounds_shape hcb with ⟨hnil, _⟩ | h4
    · exact absurd hnil (hb _ _ hbl)
    · exact h4

/-- Witness for claim C8 at a concrete scan input. -/
theorem spec_c8_witness :
    (("public.roads_a", builtSource rowNormalA [1, 2, 3, 4]) :
      String × TableSource).2.bounds.length = 4 :=
  spec_c8 connW8 catW8 lgW8
    (fun i bl hbl => by
      simp only [connW8] at hbl
      injection hbl with he
      rw [← he]
      decide)
    rfl
    _ (List.mem_singleton.mpr rfl)

/-- Claim C10: the bounds query and bounds parsing run before the SRID-0
test. With an unparseable bounds text the scan over a single SRID-0 row
aborts in a panic, although the very same row with a parseable bounds text
is excluded from the catalog (which comes back empty, with the exclusion
logged). -/
theorem spec_c10 :
    get_table_sources connC10bad =
      Except.error (ScanError.panicked "unwrap on ParseFloatError") ∧
    get_table_sources connC10good =
      Except.ok ([],
        [LogEntry.info "Found public.zero_c table source",
         LogEntry.warn "public.zero_c has SRID 0, skipping",
         LogEntry.info "No table sources found"]) := by
  constructor
  · rfl
  · rfl

/-! ## Claim C7 (defaults of a scanned table source) -/

/-- Claim C7, counterexample: the metadata scan of src/db.rs builds its
tile sources with buffer 256, not 64, and that 256 is inlined into the
synthesized tile query. -/
theorem spec_c7_cex :
    (mkTileset rowX7).buffer = 256 ∧ ¬((mkTileset rowX7).buffer = 64) ∧
      containsB (mkTileset rowX7).query ", 256," = true := by
  refine And.intro rfl (And.intro (by decide) (by decide))

/-- Claim C7, amended: the table_source.rs scan seeds every built source
with extent Some 4096, buffer Some 64, clip Some true, and
TableSource::get_tile falls back to exactly these values when the optional
fields are unset, so they are the ones in its synthesized query; the legacy
db.rs scan (get_tilesets), however, uses extent 4096, buffer 256 and clip
true in the query it synthesizes. -/
theorem spec_c7_amended :
    (∀ (conn : Connection) (cat : TableSources) (lg : List LogEntry),
      get_table_sources conn = Except.ok (cat, lg) →
      ∀ p ∈ cat, p.2.extent = some 4096 ∧ p.2.buffer = some 64 ∧ p.2.clip_geom = some true) ∧
    (∀ (s : TableSource) (xyz : XYZ) (q : Option (List (String × String))),
      get_tile_query { s with extent := none, buffer := none, clip_geom := none } xyz q =
        get_tile_query { s with extent := some 4096, buffer := some 64, clip_geom := some true } xyz q) ∧
    (∀ row : GeometryColumnsRow,
      (mkTileset row).extent = 4096 ∧ (mkTileset row).buffer = 256 ∧
        (mkTileset row).clip_geom = true) := by
  refine ⟨?_, ?_, ?_⟩
  · intro conn cat lg hok
    rw [get_table_sources] at hok
    cases hr : conn.tableRows with
    | error e => rw [hr] at hok; exact absurd hok (by simp)
    | ok rows =>
      rw [hr] at hok
      refine scanLoop_mem conn
        (fun s => s.extent = some 4096 ∧ s.buffer = some 64 ∧ s.clip_geom = some true)
        ?_ rows [] [] cat lg hok (by simp)
      intro row bl bounds _ _
      exact ⟨rfl, rfl, rfl⟩
  · intro s xyz q
    rfl
  · intro row
    exact ⟨rfl, rfl, rfl⟩

/-- Witness for the amended claim C7 at concrete inputs: the source the
scan builds carries the 4096/64/true defaults. -/
theorem spec_c7_witness :
    (("public.roads_a", builtSource rowNormalA [1, 2, 3, 4]) :
        String × TableSource).2.extent = some 4096 ∧
      (("public.roads_a", builtSource rowNormalA [1, 2, 3, 4]) :
        String × TableSource).2.buffer = some 64 ∧
      (("public.roads_a", builtSource rowNormalA [1, 2, 3, 4]) :
        String × TableSource).2.clip_geom = some true :=
  spec_c7_amended.1 connW7
    [("public.roads_a", builtSource rowNormalA [1, 2, 3, 4])]
    [LogEntry.info "Found public.roads_a table source"]
    rfl _ (List.mem_singleton.mpr rfl)

/-! ## Claims about the tile handlers and index handler (C4, C5, C6, C9) -/

/-- Claim C4: a tile fetch whose synthesized aggregate query matches zero
underlying rows returns the zero-length payload, not an error; and the
serving layer maps a zero-length payload to a 204 NoContent response and a
non-empty payload to a 200 response, two distinct outcomes. -/
theorem spec_c4 :
    (∀ (s : TableSource) (xyz : XYZ) (q : Option (List (String × String))),
      TableSource.get_tile s xyz q [] = Except.ok []) ∧
    (∀ (state : AppState) (path : TileRequestPath)
      (db : GetTileMsg → Except Unit (Except Unit (List Nat)))
      (cat : TableSources) (src : TableSource) (tile : List Nat),
      state.table_sources = some cat →
      cat.lookup path.source_id = some src →
      db { xyz := { z := path.z, x := path.x, y := path.y }, query := none,
           source := SourceBox.table src } = Except.ok (Except.ok tile) →
      (server.get_table_source_tile state path db).response =
        (if tile.length = 0 then Except.ok (ApiResponse.noContent tile)
         else Except.ok (ApiResponse.okPbf tile))) ∧
    (∀ t1 t2 : List Nat, ApiResponse.noContent t1 ≠ ApiResponse.okPbf t2) := by
  refine ⟨?_, ?_, ?_⟩
  · intro s xyz q
    rfl
  · intro state path db cat src tile hcat hlook hdb
    simp only [server.get_table_source_tile, hcat, hlook, hdb]
    by_cases h0 : tile.length = 0
    · rw [if_pos h0, if_pos h0]
    · rw [if_neg h0, if_neg h0]
  · intro t1 t2 h
    exact ApiResponse.noConfusion h

/-- Witness for claim C4 at concrete inputs. -/
theorem spec_c4_witness :
    TableSource.get_tile srcW4 { z := 0, x := 0, y := 0 } none [] = Except.ok [] ∧
      (server.get_table_source_tile stW4 pathW4 dbW4).response =
        (if ([7] : List Nat).length = 0 then Except.ok (ApiResponse.noContent [7])
         else Except.ok (ApiResponse.okPbf [7])) ∧
      ApiResponse.noContent [] ≠ ApiResponse.okPbf [7] :=
  And.intro (spec_c4.1 srcW4 { z := 0, x := 0, y := 0 } none)
    (And.intro (spec_c4.2.1 stW4 pathW4 dbW4 [("public.table_source", srcW4)] srcW4 [7] rfl rfl rfl)
      (spec_c4.2.2 [] [7]))

/-- Claim C5: a tile request naming a source absent from the held catalog
produces the 404-equivalent ErrorNotFound outcome whose message embeds the
requested identifier, and it sends no message to the database actor. -/
theorem spec_c5 (state : AppState) (path : TileRequestPath)
    (db : GetTileMsg → Except Unit (Except Unit (List Nat))) (cat : TableSources)
    (hcat : state.table_sources = some cat)
    (hmiss : cat.lookup path.source_id = none) :
    (server.get_table_source_tile state path db).response =
        Except.error (ApiError.notFound ("Table source '" ++ path.source_id ++ "' not found")) ∧
      (server.get_table_source_tile state path db).sent = [] ∧
      (∃ pre post,
        "Table source '" ++ path.source_id ++ "' not found" = pre ++ path.source_id ++ post) := by
  simp only [server.get_table_source_tile, hcat, hmiss, true_and]
  exact ⟨"Table source '", "' not found", rfl⟩

/-- Witness for claim C5 at concrete inputs. -/
theorem spec_c5_witness :
    (server.get_table_source_tile stW4
        { source_id := "public.nope", z := 0, x := 0, y := 0, format := "pbf" } dbW4).response =
        Except.error (ApiError.notFound ("Table source '" ++ "public.nope" ++ "' not found")) ∧
      (server.get_table_source_tile stW4
        { source_id := "public.nope", z := 0, x := 0, y := 0, format := "pbf" } dbW4).sent = [] ∧
      (∃ pre post,
        "Table source '" ++ "public.nope" ++ "' not found" = pre ++ "public.nope" ++ post) :=
  spec_c5 stW4 { source_id := "public.nope", z := 0, x := 0, y := 0, format := "pbf" }
    dbW4 [("public.table_source", srcW4)] rfl rfl

/-- Claim C6: with watch mode off the index handler replies with the held
catalog, sends no scan, no broadcast, and leaves the state untouched; with
watch mode on it sends exactly one scan message, and when the scan succeeds
it issues exactly one coordinator broadcast carrying the fresh catalog,
replies with that catalog, and still leaves the local state cell untouched
(the swap happens in the worker actors on receipt of the broadcast). -/
theorem spec_c6 (state : AppState) (dbScan : Except Unit (Except Unit TableSources)) :
    (state.watch_mode = false →
      server.get_table_sources state dbScan =
        { response := Except.ok (ApiResponse.jsonTableSources state.table_sources)
          scans := [], broadcasts := [], finalState := state }) ∧
    (state.watch_mode = true →
      (server.get_table_sources state dbScan).scans = [ScanMsg.getTableSources] ∧
      (server.get_table_sources state dbScan).finalState = state ∧
      ∀ ts, dbScan = Except.ok (Except.ok ts) →
        (server.get_table_sources state dbScan).broadcasts =
            [CoordMsg.refreshTableSources (some ts)] ∧
          (server.get_table_sources state dbScan).response =
            Except.ok (ApiResponse.jsonTableSources (some ts))) := by
  constructor
  · intro hw
    simp only [server.get_table_sources, hw, if_pos]
  · intro hw
    have hw' : (state.watch_mode = false) = False := by simp [hw]
    refine ⟨?_, ?_, ?_⟩
    · simp only [server.get_table_sources, hw', if_false]
      cases dbScan with
      | error e => rfl
      | ok r => cases r with
        | error e => rfl
        | ok ts => rfl
    · simp only [server.get_table_sources, hw', if_false]
      cases dbScan with
      | error e => rfl
      | ok r => cases r with
        | error e => rfl
        | ok ts => rfl
    · intro ts hts
      subst hts
      constructor
      · simp only [server.get_table_sources, hw', if_false]
      · simp only [server.get_table_sources, hw', if_false]

/-- Witness for claim C6 at concrete inputs, covering both modes. -/
theorem spec_c6_witness :
    server.get_table_sources stOff (Except.ok (Except.ok freshCat)) =
        { response := Except.ok (ApiResponse.jsonTableSources stOff.table_sources)
          scans := [], broadcasts := [], finalState := stOff } ∧
      (server.get_table_sources stOn (Except.ok (Except.ok freshCat))).scans =
        [ScanMsg.getTableSources] ∧
      (server.get_table_sources stOn (Except.ok (Except.ok freshCat))).finalState = stOn ∧
      (server.get_table_sources stOn (Except.ok (Except.ok freshCat))).broadcasts =
        [CoordMsg.refreshTableSources (some freshCat)] ∧
      (server.get_table_sources stOn (Except.ok (Except.ok freshCat))).response =
        Except.ok (ApiResponse.jsonTableSources (some freshCat)) := by
  have h1 := (spec_c6 stOff (Except.ok (Except.ok freshCat))).1 rfl
  have h2 := (spec_c6 stOn (Except.ok (Except.ok freshCat))).2 rfl
  obtain ⟨h2a, h2b, h2c⟩ := h2
  obtain ⟨h2d, h2e⟩ := h2c freshCat rfl
  exact ⟨h1, h2a, h2b, h2d, h2e⟩

/-! ## Claim C9 (query parameters of the tile routes) -/

/-- Claim C9, counterexample: for the same inbound query string, the table
tile route sends its GetTile message with query None - the parameters are
dropped - while the function tile route forwards them as Some. -/
theorem spec_c9_cex :
    (route_table_source_tile st9 req9t db9).sent =
        [{ xyz := { z := 1, x := 2, y := 3 }, query := none, source := SourceBox.table srcW4 }] ∧
      (route_function_source_tile st9 req9f db9).sent =
        [{ xyz := { z := 1, x := 2, y := 3 }, query := some [("token", "abc")],
           source := SourceBox.function srcF9 }] ∧
      (none : Option (List (String × String))) ≠ some [("token", "abc")] := by
  refine And.intro rfl (And.intro rfl (by decide))

/-- Claim C9, amended: a table-source tile request always passes None as
the extra parameters of the tile fetch - its route has no query extractor
and TableSource::get_tile ignores the parameter anyway - whereas a
function-source tile request forwards the request's query parameters as
Some. -/
theorem spec_c9_amended (state : AppState) (req : HttpTileRequest)
    (db : GetTileMsg → Except Unit (Except Unit (List Nat)))
    (cat : TableSources) (src : TableSource)
    (fcat : FunctionSources) (fsrc : FunctionSource) :
    (state.table_sources = some cat → cat.lookup req.path.source_id = some src →
      (route_table_source_tile state req db).sent =
        [{ xyz := { z := req.path.z, x := req.path.x, y := req.path.y }
           query := none, source := SourceBox.table src }]) ∧
    (state.function_sources = some fcat → fcat.lookup req.path.source_id = some fsrc →
      (route_function_source_tile state req db).sent =
        [{ xyz := { z := req.path.z, x := req.path.x, y := req.path.y }
           query := some req.queryParams, source := SourceBox.function fsrc }]) ∧
    (∀ (s : TableSource) (xyz : XYZ) (q1 q2 : Option (List (String × String)))
      (matched : List (List Nat)),
      TableSource.get_tile s xyz q1 matched = TableSource.get_tile s xyz q2 matched) := by
  refine ⟨?_, ?_, ?_⟩
  · intro hcat hlook
    simp only [route_table_source_tile, server.get_table_source_tile, hcat, hlook]
    cases db { xyz := { z := req.path.z, x := req.path.x, y := req.path.y }, query := none, source := SourceBox.table src } with
    | error e => rfl
    | ok r =>
      cases r with
      | error e => rfl
      | ok tile =>
        by_cases h0 : tile.length = 0
        · simp [h0]
        · simp [h0]
  · intro hcat hlook
    simp only [route_function_source_tile, server.get_function_source_tile, hcat, hlook]
    cases db { xyz := { z := req.path.z, x := req.path.x, y := req.path.y }, query := some req.queryParams, source := SourceBox.function fsrc } with
    | error e => rfl
    | ok r =>
      cases r with
      | error e => rfl
      | ok tile =>
        by_cases h0 : tile.length = 0
        · simp [h0]
        · simp [h0]
  · intro s xyz q1 q2 matched
    rfl

/-- Witness for the amended claim C9 at concrete inputs. -/
theorem spec_c9_witness :
    (route_table_source_tile st9 req9t db9).sent =
        [{ xyz := { z := 1, x := 2, y := 3 }, query := none, source := SourceBox.table srcW4 }] ∧
      (route_function_source_tile st9 req9f db9).sent =
        [{ xyz := { z := 1, x := 2, y := 3 }, query := some req9f.queryParams,
           source := SourceBox.function srcF9 }] :=
  And.intro
    ((spec_c9_amended st9 req9t db9 [("public.t", srcW4)] srcW4
        [("public.f", srcF9)] srcF9).1 rfl rfl)
    ((spec_c9_amended st9 req9f db9 [("public.t", srcW4)] srcW4
        [("public.f", srcF9)] srcF9).2.1 rfl rfl)

/-! ## Claim C1 (reprojection wrappers in the synthesized tile queries) -/

set_option maxRecDepth 4000 in
/-- Claim C1, counterexample: in the query the db.rs scanner synthesizes
for a SRID-4326 table, ST_Transform occurs exactly once (around the
geometry column); the clipping envelope stays the SRID-3857 TileBBox call
and the source SRID 4326 appears nowhere, so the envelope is not wrapped in
a reprojection to the source SRID. -/
theorem spec_c1_cex :
    (mkTileset rowY1).query =
      "SELECT ST_AsMVT(q, 'roads_y', 4096, 'geom') FROM (SELECT ST_AsMVTGeom(ST_Transform(geom, 3857), TileBBox($1, $2, $3, 3857), 4096, 256, true) AS geom FROM public.roads_y) AS q;" ∧
      countSub "ST_Transform".data (mkTileset rowY1).query.data = 1 ∧
      containsB (mkTileset rowY1).query "4326" = false := by
  refine And.intro rfl (And.intro (by decide) (by decide))

/-- The two expression slots handed to the template land verbatim in the
synthesized query: the geometry expression inside the ST_AsMVTGeom call and
the bounds expression in the WHERE clause. -/
theorem mkTileQuery_contains_slots (s : TableSource) (xyz : XYZ) (g b : String) :
    strContains (mkTileQuery s xyz g b) g ∧ strContains (mkTileQuery s xyz g b) b := by
  constructor
  · refine ⟨("SELECT ST_AsMVT(tile, '" ++ s.id ++ "', " ++
      natToStr (s.extent.getD DEFAULT_EXTENT) ++ ", 'geom'" ++ idColStr s ++
      ") FROM (SELECT ST_AsMVTGeom(").data,
      (", " ++ tilebbox xyz ++ ", " ++ natToStr (s.extent.getD DEFAULT_EXTENT) ++ ", " ++
      natToStr (s.buffer.getD DEFAULT_BUFFER) ++ ", " ++
      boolToStr (s.clip_geom.getD DEFAULT_CLIP_GEOM) ++ ") AS geom" ++ propsStr s ++
      " FROM " ++ s.id ++ " WHERE " ++ s.geometry_column ++ " && " ++ b ++ ") AS tile").data, ?_⟩
    simp [mkTileQuery, str_data_append, List.append_assoc]
  · refine ⟨("SELECT ST_AsMVT(tile, '" ++ s.id ++ "', " ++
      natToStr (s.extent.getD DEFAULT_EXTENT) ++ ", 'geom'" ++ idColStr s ++
      ") FROM (SELECT ST_AsMVTGeom(" ++ g ++ ", " ++ tilebbox xyz ++ ", " ++
      natToStr (s.extent.getD DEFAULT_EXTENT) ++ ", " ++
      natToStr (s.buffer.getD DEFAULT_BUFFER) ++ ", " ++
      boolToStr (s.clip_geom.getD DEFAULT_CLIP_GEOM) ++ ") AS geom" ++ propsStr s ++
      " FROM " ++ s.id ++ " WHERE " ++ s.geometry_column ++ " && ").data,
      (") AS tile").data, ?_⟩
    simp [mkTileQuery, str_data_append, List.append_assoc]

/-- In the db.rs template the transformed-geometry slot lands verbatim in
the ST_AsMVTGeom call, immediately followed by the fixed SRID-3857 TileBBox
envelope. -/
theorem mkTilesetQuery_contains_slots (row : GeometryColumnsRow) (t : String)
    (e bu : Int) (c : Bool) :
    strContains (mkTilesetQuery row t e bu c) t ∧
      strContains (mkTilesetQuery row t e bu c)
        (t ++ ", TileBBox($1, $2, $3, 3857), ") := by
  constructor
  · refine ⟨("SELECT ST_AsMVT(q, '" ++ row.f_table_name ++ "', " ++ intToStr e ++ ", '" ++
      row.f_geometry_column ++ "') FROM (SELECT ST_AsMVTGeom(").data,
      (", TileBBox($1, $2, $3, 3857), " ++ intToStr e ++ ", " ++ intToStr bu ++
      ", " ++ boolToStr c ++ ") AS geom FROM " ++ row.f_table_schema ++ "." ++
      row.f_table_name ++ ") AS q;").data, ?_⟩
    simp [mkTilesetQuery, str_data_append, List.append_assoc]
  · refine ⟨("SELECT ST_AsMVT(q, '" ++ row.f_table_name ++ "', " ++ intToStr e ++ ", '" ++
      row.f_geometry_column ++ "') FROM (SELECT ST_AsMVTGeom(").data,
      (intToStr e ++ ", " ++ intToStr bu ++ ", " ++ boolToStr c ++ ") AS geom FROM " ++
      row.f_table_schema ++ "." ++ row.f_table_name ++ ") AS q;").data, ?_⟩
    simp [mkTilesetQuery, str_data_append, List.append_assoc]

/-- Claim C1, amended: in TableSource::get_tile the claim holds as stated -
with SRID 3857 the synthesized query contains no ST_Transform at all
(provided the source's own identifiers are free of the capital letter S, so
that they cannot spell the wrapper themselves), and with any other SRID
both the returned geometry column and the spatial filter envelope are
wrapped in ST_Transform, placing filter and geometry in one coordinate
space. The legacy db.rs synthesizer, however, wraps only the geometry
column (into 3857) and leaves its envelope as the unwrapped SRID-3857
TileBBox call - filter and geometry still share a coordinate space, but the
envelope carries no reprojection wrapper. -/
theorem spec_c1_amended (s : TableSource) (xyz : XYZ)
    (q : Option (List (String × String))) (row : GeometryColumnsRow) :
    (s.srid = 3857 → CleanIdentifiers s →
      ¬ strContains (get_tile_query s xyz q) "ST_Transform") ∧
    (s.srid ≠ 3857 →
      get_tile_query s xyz q =
        mkTileQuery s xyz ("ST_Transform(" ++ s.geometry_column ++ ", 3857)")
          ("ST_Transform(" ++ tilebbox xyz ++ ", " ++ natToStr s.srid ++ ")") ∧
      strContains (get_tile_query s xyz q) ("ST_Transform(" ++ s.geometry_column ++ ", 3857)") ∧
      strContains (get_tile_query s xyz q)
        ("ST_Transform(" ++ tilebbox xyz ++ ", " ++ natToStr s.srid ++ ")")) ∧
    (row.srid ≠ 3857 →
      (mkTileset row).query =
        mkTilesetQuery row ("ST_Transform(" ++ row.f_geometry_column ++ ", 3857)")
          4096 256 true ∧
      strContains (mkTileset row).query
        ("ST_Transform(" ++ row.f_geometry_column ++ ", 3857)") ∧
      strContains (mkTileset row).query
        ("ST_Transform(" ++ row.f_geometry_column ++ ", 3857)" ++
          ", TileBBox($1, $2, $3, 3857), ")) := by
  refine ⟨?_, ?_, ?_⟩
  · intro h3857 hcl
    have he : get_tile_query s xyz q = mkTileQuery s xyz s.geometry_column (tilebbox xyz) := by
      simp [get_tile_query, h3857]
    rw [he]
    exact not_strContains_of_safeStr (safeStr_mkTileQuery s xyz hcl) (by decide)
  · intro hne
    have he : get_tile_query s xyz q =
        mkTileQuery s xyz ("ST_Transform(" ++ s.geometry_column ++ ", 3857)")
          ("ST_Transform(" ++ tilebbox xyz ++ ", " ++ natToStr s.srid ++ ")") := by
      simp [get_tile_query, hne]
    refine ⟨he, ?_, ?_⟩
    · rw [he]
      exact (mkTileQuery_contains_slots s xyz _ _).1
    · rw [he]
      exact (mkTileQuery_contains_slots s xyz _ _).2
  · intro hne
    have he : (mkTileset row).query =
        mkTilesetQuery row ("ST_Transform(" ++ row.f_geometry_column ++ ", 3857)")
          4096 256 true := by
      simp [mkTileset, hne]
    refine ⟨he, ?_, ?_⟩
    · rw [he]
      exact (mkTilesetQuery_contains_slots row _ 4096 256 true).1
    · rw [he]
      exact (mkTilesetQuery_contains_slots row _ 4096 256 true).2

/-- Witness for the amended claim C1 at concrete inputs: no wrapper at SRID
3857; both wrappers (geometry and envelope) at SRID 4326; the single
geometry wrapper in the db.rs query. -/
theorem spec_c1_witness :
    (¬ strContains (get_tile_query srcW4 xyzW none) "ST_Transform") ∧
      (get_tile_query { srcW4 with srid := 4326 } xyzW none =
        mkTileQuery { srcW4 with srid := 4326 } xyzW ("ST_Transform(" ++ "geom" ++ ", 3857)")
          ("ST_Transform(" ++ tilebbox xyzW ++ ", " ++ natToStr 4326 ++ ")") ∧
        strContains (get_tile_query { srcW4 with srid := 4326 } xyzW none)
          ("ST_Transform(" ++ "geom" ++ ", 3857)") ∧
        strContains (get_tile_query { srcW4 with srid := 4326 } xyzW none)
          ("ST_Transform(" ++ tilebbox xyzW ++ ", " ++ natToStr 4326 ++ ")")) ∧
      ((mkTileset rowY2).query =
        mkTilesetQuery rowY2 ("ST_Transform(" ++ "geom" ++ ", 3857)") 4096 256 true ∧
        strContains (mkTileset rowY2).query ("ST_Transform(" ++ "geom" ++ ", 3857)") ∧
        strContains (mkTileset rowY2).query
          ("ST_Transform(" ++ "geom" ++ ", 3857)" ++ ", TileBBox($1, $2, $3, 3857), ")) := by
  refine ⟨?_, ?_, ?_⟩
  · exact (spec_c1_amended srcW4 xyzW none rowY2).1 rfl
      ⟨noS_of_all (by decide), noS_of_all (by decide),
       fun c hc => by simp [srcW4] at hc,
       fun kv hkv => by simp [srcW4] at hkv⟩
  · exact (spec_c1_amended { srcW4 with srid := 4326 } xyzW none rowY2).2.1 (by decide)
  · exact (spec_c1_amended srcW4 xyzW none rowY2).2.2 (by decide)
